import Mathlib

/-!
Verification of the routing-solver repository: a shallow embedding of
`create_data_model` / `vrp_solver` (src/routing-solver/routing_solver.py),
the configuration validation in `main` (src/main.py), and the spec-level
semantics of the external constraint engine's Time dimension and break
intervals, together with theorems settling the specified properties.
-/

/-- The Python exceptions that `create_data_model` and the config loader can
raise: `TypeError` and `ValueError` with a message, and the `IndexError`
raised by an out-of-range subscript such as `time_matrix[0]` on `[]`. -/
inductive PyErr where
  | typeError (msg : String)
  | valueError (msg : String)
  | indexError
deriving DecidableEq, Repr

/-- A validation error in the sense of the design spec: `TypeError` or
`ValueError` raised by an explicit validation check, as opposed to an
incidental `IndexError`. -/
def PyErr.isValidation : PyErr → Bool
  | .typeError _ => true
  | .valueError _ => true
  | .indexError => false

/-- The data model dictionary built by `create_data_model`
(src/routing-solver/routing_solver.py, lines 78-88). -/
structure DataModel where
  matrix : List (List Int)
  num_vehicles : Int
  starts : List Int
  ends : List Int
  break_time : Option Int
  break_start_time : Option Int
  service_time : List Int
  max_route_time : Int
  slack_time : Int
deriving DecidableEq, Repr

/-- Embedding of `create_data_model` (src/routing-solver/routing_solver.py,
lines 5-90).  The dynamic `isinstance` checks that are guaranteed by the
Lean types (`time_matrix` a list of lists, all entries / parameters ints)
are vacuously true and therefore omitted; every other check is kept in the
source's order.  `time_matrix[0]` on the empty list raises `IndexError`,
which the source does not catch.  The two `warnings.warn` calls do not
raise and are modelled as no-ops. -/
def create_data_model (time_matrix : List (List Int)) (num_vehicles : Int)
    (starts ends : List Int) (break_time break_start_time : Option Int)
    (service_time max_route_time slack_time : Int) : Except PyErr DataModel :=
  if time_matrix = [] then
    .error .indexError
  else if time_matrix.length ≠ time_matrix.headI.length then
    .error (.valueError "time_matrix must be square (equal number of rows and columns).")
  else if num_vehicles ≤ 0 then
    .error (.valueError "num_vehicles must be a positive integer.")
  else if (starts.length : Int) ≠ num_vehicles then
    .error (.valueError s!"starts must be a list of {num_vehicles} integers.")
  else if (ends.length : Int) ≠ num_vehicles then
    .error (.valueError s!"ends must be a list of {num_vehicles} integers.")
  else if ¬ (∀ i ∈ starts, 0 ≤ i ∧ i < (time_matrix.length : Int)) then
    .error (.valueError "start index out of range.")
  else if ¬ (∀ i ∈ ends, 0 ≤ i ∧ i < (time_matrix.length : Int)) then
    .error (.valueError "end index out of range.")
  else if Option.any (fun bt => decide (bt < 0)) break_time then
    .error (.valueError "break_time must be a non-negative integer.")
  else if Option.any (fun bst => decide (bst < 0)) break_start_time then
    .error (.valueError "break_start_time must be a non-negative integer.")
  else if service_time < 0 then
    .error (.valueError "service_time must be a non-negative integer.")
  else if max_route_time ≤ 0 then
    .error (.valueError "max_route_time must be a positive integer.")
  else if slack_time < 0 then
    .error (.valueError "slack_time must be a non-negative integer.")
  else
    .ok ⟨time_matrix, num_vehicles, starts, ends, break_time, break_start_time,
         List.replicate time_matrix.length service_time, max_route_time, slack_time⟩

/-- `true` exactly when the call returned a data model (did not raise). -/
def okB : Except PyErr DataModel → Bool
  | .ok _ => true
  | .error _ => false

/-- `true` exactly when the call raised a `ValueError`. -/
def isValueError : Except PyErr DataModel → Bool
  | .error (.valueError _) => true
  | _ => false

/-- The conjunction of every validation condition `create_data_model`
checks (including the implicit non-emptiness needed by `time_matrix[0]`):
an input passes all of them exactly when the source reaches the final
`return data`. -/
def allChecksPass (time_matrix : List (List Int)) (num_vehicles : Int)
    (starts ends : List Int) (break_time break_start_time : Option Int)
    (service_time max_route_time slack_time : Int) : Bool :=
  decide (time_matrix ≠ []) &&
  decide (time_matrix.length = time_matrix.headI.length) &&
  decide (0 < num_vehicles) &&
  decide ((starts.length : Int) = num_vehicles) &&
  decide ((ends.length : Int) = num_vehicles) &&
  decide (∀ i ∈ starts, 0 ≤ i ∧ i < (time_matrix.length : Int)) &&
  decide (∀ i ∈ ends, 0 ≤ i ∧ i < (time_matrix.length : Int)) &&
  !(Option.any (fun bt => decide (bt < 0)) break_time) &&
  !(Option.any (fun bst => decide (bst < 0)) break_start_time) &&
  decide (0 ≤ service_time) &&
  decide (0 < max_route_time) &&
  decide (0 ≤ slack_time)

/-- Embedding of the transit callback `time_callback`
(src/routing-solver/routing_solver.py, lines 125-129): travel time of the
arc plus the service time of the departure node.  Out-of-range lookups
default to `[]` / `0`; in-range behaviour is characterised below. -/
def time_callback (data : DataModel) (from_node to_node : Nat) : Int :=
  (data.matrix.getD from_node []).getD to_node 0 + data.service_time.getD from_node 0

/-- A fixed-duration interval variable as created by
`routing.solver().FixedDurationIntervalVar(start_min, start_max, duration,
optional, name)` in src/routing-solver/routing_solver.py, lines 157-162. -/
structure IntervalSpec where
  startMin : Int
  startMax : Int
  duration : Int
  optional : Bool
  name : String
deriving DecidableEq, Repr

/-- Modelled from the spec: the semantics of a committed (performed)
fixed-duration interval — the solver may realize a start time and duration
for the interval exactly when the start lies in `[startMin, startMax]` and
the duration equals the fixed `duration` (the constraint engine itself is
the external library, so its interval semantics are taken from §4.4 of the
spec). -/
def IntervalSpec.admits (s : IntervalSpec) (start dur : Int) : Prop :=
  s.startMin ≤ start ∧ start ≤ s.startMax ∧ dur = s.duration

/-- Embedding of the break-construction loop of `vrp_solver`
(src/routing-solver/routing_solver.py, lines 148-167): when both
`break_time` and `break_start_time` are present, one singleton list of
break intervals is attached per vehicle; otherwise no interval is
created. -/
def vrp_breaks (data : DataModel) : List (List IntervalSpec) :=
  match data.break_time, data.break_start_time with
  | some bt, some bst =>
      (List.range data.num_vehicles.toNat).map (fun v =>
        [⟨bst, bst + data.slack_time, bt, false, s!"Break for vehicle {v}"⟩])
  | _, _ => []

/-- Modelled from the spec: the constraints the Time dimension places on a
committed route, from §4.3 — a route is a sequence of `RouteStep`s
`(node, cumulative_time)`; every cumulative time lies in
`[0, max_route_time]`, and across each arc
`cumul(prev) + cost(prev, next) ≤ cumul(next) ≤ cumul(prev) +
cost(prev, next) + slack_time` (the dimension itself lives in the external
constraint library; `vrp_solver` configures it with capacity
`max_route_time` and slack `slack_time` at lines 136-145). -/
def timeDimOk (data : DataModel) : List (Nat × Int) → Bool
  | [] => true
  | [s] => decide (0 ≤ s.2) && decide (s.2 ≤ data.max_route_time)
  | s :: t :: rest =>
      decide (0 ≤ s.2) && decide (s.2 ≤ data.max_route_time) &&
      decide (s.2 + time_callback data s.1 t.1 ≤ t.2) &&
      decide (t.2 ≤ s.2 + time_callback data s.1 t.1 + data.slack_time) &&
      timeDimOk data (t :: rest)

/-- The cumulative times along a route are non-decreasing. -/
def cumulNondecreasing (steps : List (Nat × Int)) : Prop :=
  List.Chain' (fun a b : Nat × Int => a.2 ≤ b.2) steps

/-- The cumulative time at the final step (the vehicle's end node) is at
most `max_route_time`; vacuously true for an empty route. -/
def lastCumulBound (data : DataModel) (steps : List (Nat × Int)) : Bool :=
  match steps.getLast? with
  | none => true
  | some s => decide (s.2 ≤ data.max_route_time)

/-- A JSON-like value, as loaded from `config.json` by `main`
(src/main.py): Python is dynamically typed, so a config value can be an
int, a string, a list, or null. -/
inductive Value where
  | int (n : Int)
  | str (s : String)
  | list (xs : List Value)
  | null

/-- A configuration record: the key/value pairs of the loaded JSON
object. -/
def Config : Type := List (String × Value)

/-- `config.get(key)` / `key in config.keys()`: the first value bound to
`key`, if any. -/
def cfgGet (config : Config) (key : String) : Option Value :=
  (List.find? (fun kv => kv.1 == key) config).map (fun kv => kv.2)

/-- The four required configuration keys of `main` (src/main.py,
lines 46-51). -/
def required_keys : List String := ["num_vehicles", "starts", "ends", "locations"]

/-- `required_keys - config.keys()` of src/main.py line 31: the required
keys absent from the config (the source uses an unordered set; this model
fixes the declaration order). -/
def missing_of (config : Config) (required : List String) : List String :=
  required.filter (fun k => (cfgGet config k).isNone)

/-- Embedding of `validate_required_keys` (src/main.py, lines 19-35):
raises `ValueError` naming the missing required keys when any is absent,
and returns `True` otherwise.  No type check of any value is performed. -/
def validate_required_keys (config : Config) (required : List String) : Except PyErr Bool :=
  if missing_of config required ≠ [] then
    .error (.valueError
      ("Missing required keys: " ++ String.intercalate ", " (missing_of config required)))
  else
    .ok true

/-- `config.get('service_time', 15)` of src/main.py line 63: the value
used for `service_time`, defaulting to 15 and passing any present value
through unchecked. -/
def main_service_time (config : Config) : Value :=
  (cfgGet config "service_time").getD (.int 15)

/-- `config.get('max_route_time', 720)` of src/main.py line 64. -/
def main_max_route_time (config : Config) : Value :=
  (cfgGet config "max_route_time").getD (.int 720)

/-- `config.get('slack_time', 10)` of src/main.py line 65. -/
def main_slack_time (config : Config) : Value :=
  (cfgGet config "slack_time").getD (.int 10)

/-- The hardcoded 17x17 matrix assigned to `time_matrix` at src/main.py
lines 73-91, overwriting the fetched matrix. -/
def hardcoded_matrix_17 : List (List Int) :=
  [[0, 6, 9, 8, 7, 3, 6, 2, 3, 2, 6, 6, 4, 4, 5, 9, 7],
   [6, 0, 8, 3, 2, 6, 8, 4, 8, 8, 13, 7, 5, 8, 12, 10, 14],
   [9, 8, 0, 11, 10, 6, 3, 9, 5, 8, 4, 15, 14, 13, 9, 18, 9],
   [8, 3, 11, 0, 1, 7, 10, 6, 10, 10, 14, 6, 7, 9, 14, 6, 16],
   [7, 2, 10, 1, 0, 6, 9, 4, 8, 9, 13, 4, 6, 8, 12, 8, 14],
   [3, 6, 6, 7, 6, 0, 2, 3, 2, 2, 7, 9, 7, 7, 6, 12, 8],
   [6, 8, 3, 10, 9, 2, 0, 6, 2, 5, 4, 12, 10, 10, 6, 15, 5],
   [2, 4, 9, 6, 4, 3, 6, 0, 4, 4, 8, 5, 4, 3, 7, 8, 10],
   [3, 8, 5, 10, 8, 2, 2, 4, 0, 3, 4, 9, 8, 7, 3, 13, 6],
   [2, 8, 8, 10, 9, 2, 5, 4, 3, 0, 4, 6, 5, 4, 3, 9, 5],
   [6, 13, 4, 14, 13, 7, 4, 8, 4, 4, 0, 10, 9, 8, 4, 13, 4],
   [6, 7, 15, 6, 4, 9, 12, 5, 9, 6, 10, 0, 1, 3, 7, 3, 10],
   [4, 5, 14, 7, 6, 7, 10, 4, 8, 5, 9, 1, 0, 2, 6, 4, 8],
   [4, 8, 13, 9, 8, 7, 10, 3, 7, 4, 8, 3, 2, 0, 4, 5, 6],
   [5, 12, 9, 14, 12, 6, 6, 7, 3, 3, 4, 7, 6, 4, 0, 9, 2],
   [9, 10, 18, 6, 8, 12, 15, 8, 13, 9, 13, 3, 4, 5, 9, 0, 9],
   [7, 14, 9, 16, 14, 8, 5, 10, 6, 5, 4, 10, 8, 6, 2, 9, 0]]

/-- The hardcoded 2x2 matrix assigned to `time_matrix` at src/main.py
lines 93-96, the last assignment before the solver is invoked. -/
def demo_matrix_2 : List (List Int) := [[0, 1], [1, 4]]

/-- Embedding of the `time_matrix` pipeline of `main` (src/main.py,
lines 67-96): the fetched matrix (or the fetch failure, whose exception is
caught and printed) is bound first, then unconditionally shadowed by the
hardcoded 17x17 matrix, then by the 2x2 matrix; the final binding is what
reaches the solver. -/
def main_time_matrix (fetched : Except String (List (List Int))) : List (List Int) :=
  let time_matrix := (fetched.toOption).getD []
  let time_matrix := hardcoded_matrix_17
  let time_matrix := demo_matrix_2
  time_matrix

/-- The data model `main` builds at src/main.py line 99 and hands to
`vrp_solver`: `create_data_model` applied to the final `time_matrix`. -/
def main_build_data (fetched : Except String (List (List Int))) (num_vehicles : Int)
    (starts ends : List Int) (break_time break_start_time : Option Int)
    (service_time max_route_time slack_time : Int) : Except PyErr DataModel :=
  create_data_model (main_time_matrix fetched) num_vehicles starts ends
    break_time break_start_time service_time max_route_time slack_time

/-- C10: calling `create_data_model` with the empty matrix raises an
uncaught `IndexError` (from `time_matrix[0]` in the square-shape check),
not a validation error, whatever the other arguments are. -/
theorem create_data_model_empty_matrix_IndexError (num_vehicles : Int)
    (starts ends : List Int) (break_time break_start_time : Option Int)
    (service_time max_route_time slack_time : Int) :
    create_data_model [] num_vehicles starts ends break_time break_start_time
        service_time max_route_time slack_time = .error .indexError ∧
    PyErr.indexError.isValidation = false :=
  ⟨rfl, rfl⟩

/-- C1: `create_data_model` does NOT reject the fetch-failure sentinels —
a matrix containing `-1` (and likewise `-1000`) passes every validation
check and is returned inside the data model handed to the search engine,
contradicting the spec's requirement of an instance-validation error. -/
theorem create_data_model_accepts_sentinels :
    create_data_model [[0, -1], [-1, 0]] 1 [0] [0] none none 15 720 10 =
      .ok ⟨[[0, -1], [-1, 0]], 1, [0], [0], none, none, [15, 15], 720, 10⟩ ∧
    create_data_model [[0, -1000], [-1000, 0]] 1 [0] [0] none none 15 720 10 =
      .ok ⟨[[0, -1000], [-1000, 0]], 1, [0], [0], none, none, [15, 15], 720, 10⟩ :=
  ⟨rfl, rfl⟩

/-- C5 counterexample: a ragged (non-square) matrix whose FIRST row has
length equal to the row count is accepted by `create_data_model` — the
claim that every non-square list of lists raises a validation error is
false. -/
theorem ragged_matrix_accepted :
    okB (create_data_model [[0, 1], [0]] 1 [0] [0] none none 15 720 10) = true ∧
    ∃ row ∈ ([[0, 1], [0]] : List (List Int)),
      row.length ≠ ([[0, 1], [0]] : List (List Int)).length := by
  constructor
  · decide
  · exact ⟨[0], by simp, by simp⟩

/-- C5 amended: `create_data_model` raises the square-shape `ValueError`
exactly on the check the source performs — when the FIRST row's length
differs from the number of rows (rows beyond the first are never
examined). -/
theorem create_data_model_first_row_square_check (time_matrix : List (List Int))
    (num_vehicles : Int) (starts ends : List Int)
    (break_time break_start_time : Option Int)
    (service_time max_route_time slack_time : Int)
    (hne : time_matrix ≠ [])
    (hsq : time_matrix.length ≠ time_matrix.headI.length) :
    create_data_model time_matrix num_vehicles starts ends break_time break_start_time
        service_time max_route_time slack_time =
      .error (.valueError "time_matrix must be square (equal number of rows and columns).") := by
  unfold create_data_model
  rw [if_neg hne, if_pos hsq]

/-- Witness: a 3-row matrix whose first row has length 2 is rejected with
the square-shape error. -/
theorem create_data_model_first_row_square_check_witness :
    create_data_model [[0, 1], [1, 0], [0, 0]] 1 [0] [0] none none 15 720 10 =
      .error (.valueError "time_matrix must be square (equal number of rows and columns).") :=
  create_data_model_first_row_square_check [[0, 1], [1, 0], [0, 0]] 1 [0] [0]
    none none 15 720 10 (by decide) (by decide)

/-- C8: whatever the distance-matrix fetch returns (success or failure),
`main` overwrites `time_matrix` with the hardcoded 17x17 matrix and then
with the 2x2 matrix `[[0, 1], [1, 4]]`, so the data model handed to the
solver is always built from `[[0, 1], [1, 4]]` and the fetched travel
times never reach it. -/
theorem main_matrix_unconditionally_overwritten
    (fetched : Except String (List (List Int))) (num_vehicles : Int)
    (starts ends : List Int) (break_time break_start_time : Option Int)
    (service_time max_route_time slack_time : Int) :
    main_time_matrix fetched = [[0, 1], [1, 4]] ∧
    main_build_data fetched num_vehicles starts ends break_time break_start_time
        service_time max_route_time slack_time =
      create_data_model [[0, 1], [1, 4]] num_vehicles starts ends break_time
        break_start_time service_time max_route_time slack_time ∧
    demo_matrix_2 ≠ hardcoded_matrix_17 :=
  ⟨rfl, rfl, by decide⟩

/-- C2: for every in-range pair of nodes, the transit callback returns the
matrix entry for the arc plus the service time of the departure node (it
is a plain function of the data model and the two node indices, hence pure
and total). -/
theorem time_callback_eq (data : DataModel) (i j : Nat)
    (hi : i < data.matrix.length) (hj : j < (data.matrix.get ⟨i, hi⟩).length)
    (hs : i < data.service_time.length) :
    time_callback data i j =
      (data.matrix.get ⟨i, hi⟩).get ⟨j, hj⟩ + data.service_time.get ⟨i, hs⟩ := by
  unfold time_callback
  simp only [List.getD_eq_getElem?_getD]
  rw [List.getElem?_eq_getElem hi, Option.getD_some]
  have hj' : j < (data.matrix[i]).length := by simpa [List.get_eq_getElem] using hj
  rw [List.getElem?_eq_getElem hj', Option.getD_some,
      List.getElem?_eq_getElem hs, Option.getD_some]
  simp [List.get_eq_getElem]

/-- Witness for `time_callback_eq` on a concrete data model:
`time_callback` at `(0, 1)` gives `matrix[0][1] + service_time[0]
= 7 + 15 = 22`. -/
theorem time_callback_eq_witness :
    time_callback ⟨[[0, 7], [7, 0]], 1, [0], [0], none, none, [15, 15], 720, 10⟩ 0 1 = 22 := by
  rw [time_callback_eq ⟨[[0, 7], [7, 0]], 1, [0], [0], none, none, [15, 15], 720, 10⟩ 0 1
    (by decide) (by decide) (by decide)]
  decide

/-- Every transit cost is non-negative when all matrix entries and service
times are (helper for the Time dimension invariant). -/
theorem time_callback_nonneg (data : DataModel)
    (hm : ∀ row ∈ data.matrix, ∀ x ∈ row, 0 ≤ x)
    (hs : ∀ s ∈ data.service_time, 0 ≤ s) (i j : Nat) :
    0 ≤ time_callback data i j := by
  unfold time_callback
  have h1 : 0 ≤ (data.matrix.getD i []).getD j 0 := by
    simp only [List.getD_eq_getElem?_getD]
    rcases hrow : data.matrix[i]? with _ | row
    · simp
    · simp only [Option.getD_some]
      rcases hx : row[j]? with _ | x
      · simp
      · simpa using hm row (List.getElem?_mem hrow) x (List.getElem?_mem hx)
  have h2 : 0 ≤ data.service_time.getD i 0 := by
    simp only [List.getD_eq_getElem?_getD]
    rcases hrow : data.service_time[i]? with _ | s
    · simp
    · simpa using hs s (List.getElem?_mem hrow)
  omega

/-- C3: under the Time dimension constraints that `vrp_solver` configures
(modelled from the spec, §4.3), every committed route with non-negative
matrix entries and service times has non-decreasing cumulative times, and
the cumulative time at the final (end) node is at most `max_route_time`. -/
theorem committed_route_monotone_bounded (data : DataModel)
    (steps : List (Nat × Int))
    (hm : ∀ row ∈ data.matrix, ∀ x ∈ row, 0 ≤ x)
    (hs : ∀ s ∈ data.service_time, 0 ≤ s)
    (hok : timeDimOk data steps = true) :
    cumulNondecreasing steps ∧ lastCumulBound data steps = true := by
  induction steps with
  | nil => exact ⟨List.chain'_nil, rfl⟩
  | cons a rest ih =>
    cases rest with
    | nil =>
      unfold timeDimOk at hok
      simp only [Bool.and_eq_true, decide_eq_true_eq] at hok
      refine ⟨List.chain'_singleton a, ?_⟩
      simp [lastCumulBound, hok.2]
    | cons b rest2 =>
      unfold timeDimOk at hok
      simp only [Bool.and_eq_true, decide_eq_true_eq] at hok
      obtain ⟨⟨⟨⟨h0, hmax⟩, harc⟩, hslack⟩, htail⟩ := hok
      have ihres := ih htail
      have hcost : 0 ≤ time_callback data a.1 b.1 := time_callback_nonneg data hm hs a.1 b.1
      constructor
      · exact List.chain'_cons.2 ⟨by omega, ihres.1⟩
      · simpa [lastCumulBound, List.getLast?_cons_cons] using ihres.2

/-- A concrete valid data model (2 locations, 1 vehicle) used by the
witnesses. -/
def dataW : DataModel := ⟨[[0, 1], [1, 0]], 1, [0], [0], none, none, [15, 15], 720, 10⟩

/-- Witness: the committed route `0 → 1 → 0` with cumulative times
`0, 16, 32` satisfies the Time dimension constraints of `dataW`, and is
indeed non-decreasing with final time within `max_route_time`. -/
theorem committed_route_monotone_bounded_witness :
    cumulNondecreasing [(0, 0), (1, 16), (0, 32)] ∧
    lastCumulBound dataW [(0, 0), (1, 16), (0, 32)] = true :=
  committed_route_monotone_bounded dataW [(0, 0), (1, 16), (0, 32)]
    (by decide) (by decide) (by decide)

/-- C4: when a break is configured (`break_time` and `break_start_time`
both present), `vrp_solver` attaches exactly one break interval per
vehicle, with start window `[break_start_time, break_start_time +
slack_time]`, exact duration `break_time`, and the optional flag `false`
(mandatory); and, by the interval semantics, any realized break admitted
by such an interval starts in that window and lasts exactly
`break_time`. -/
theorem vrp_breaks_configured (data : DataModel) (bt bst : Int)
    (hbt : data.break_time = some bt) (hbst : data.break_start_time = some bst) :
    (vrp_breaks data).length = data.num_vehicles.toNat ∧
    (∀ specs ∈ vrp_breaks data, specs.length = 1) ∧
    (∀ specs ∈ vrp_breaks data, ∀ s ∈ specs,
      s.startMin = bst ∧ s.startMax = bst + data.slack_time ∧
      s.duration = bt ∧ s.optional = false) ∧
    (∀ specs ∈ vrp_breaks data, ∀ s ∈ specs, ∀ start dur,
      s.admits start dur → bst ≤ start ∧ start ≤ bst + data.slack_time ∧ dur = bt) := by
  unfold vrp_breaks
  rw [hbt, hbst]
  refine ⟨by simp, ?_, ?_, ?_⟩
  · intro specs hspec
    obtain ⟨v, _, rfl⟩ := List.mem_map.1 hspec
    rfl
  · intro specs hspec s hsmem
    obtain ⟨v, _, rfl⟩ := List.mem_map.1 hspec
    rw [List.mem_singleton] at hsmem
    subst hsmem
    exact ⟨rfl, rfl, rfl, rfl⟩
  · intro specs hspec s hsmem start dur hadm
    obtain ⟨v, _, rfl⟩ := List.mem_map.1 hspec
    rw [List.mem_singleton] at hsmem
    subst hsmem
    exact ⟨hadm.1, hadm.2.1, hadm.2.2⟩

/-- A concrete data model with a configured break (5 minutes at minute 50)
used by the witnesses. -/
def dataB : DataModel :=
  ⟨[[0, 1], [1, 0]], 1, [0], [0], some 5, some 50, [15, 15], 720, 10⟩

/-- Witness: `dataB` has a configured break, and exactly one break
interval list per vehicle is attached. -/
theorem vrp_breaks_configured_witness :
    dataB.break_time = some 5 ∧ dataB.break_start_time = some 50 ∧
    (vrp_breaks dataB).length = dataB.num_vehicles.toNat :=
  ⟨rfl, rfl, (vrp_breaks_configured dataB 5 50 rfl rfl).1⟩

/-- C9: `vrp_solver` attaches break intervals only when both `break_time`
and `break_start_time` are present; if either is `None`, no interval is
created for any vehicle. -/
theorem vrp_breaks_only_when_configured (data : DataModel) :
    ((data.break_time = none ∨ data.break_start_time = none) → vrp_breaks data = []) ∧
    (vrp_breaks data ≠ [] →
      data.break_time.isSome = true ∧ data.break_start_time.isSome = true) := by
  cases hbt : data.break_time <;> cases hbst : data.break_start_time <;>
    simp [vrp_breaks, hbt, hbst]

/-- A data model with `break_time = None` (but a break start time) used by
the witness. -/
def dataN : DataModel :=
  ⟨[[0, 1], [1, 0]], 1, [0], [0], none, some 50, [15, 15], 720, 10⟩

/-- Witness: with `break_time = None` no break interval is attached. -/
theorem vrp_breaks_only_when_configured_witness :
    vrp_breaks dataN = [] :=
  (vrp_breaks_only_when_configured dataN).1 (Or.inl rfl)

/-- C6 counterexample: with the empty matrix, a start index out of
`[0, N)` (here `0` with `N = 0`) makes `create_data_model` raise
`IndexError`, which is not a validation error — so the claim's failure
clause does not hold universally. -/
theorem out_of_range_start_empty_matrix_not_validation :
    ¬ ((0 : Int) ≤ 0 ∧ (0 : Int) < (([] : List (List Int)).length : Int)) ∧
    create_data_model [] 1 [0] [0] none none 15 720 10 = .error .indexError ∧
    PyErr.indexError.isValidation = false :=
  ⟨by decide, rfl, rfl⟩

/-- C6 amended: for a NON-EMPTY matrix, a `starts`/`ends` length mismatch
with `num_vehicles` or an out-of-range start/end index makes
`create_data_model` raise a `ValueError`; and any input passing all of the
source's validation checks yields the data model without raising. -/
theorem create_data_model_checks_starts_ends (time_matrix : List (List Int))
    (num_vehicles : Int) (starts ends : List Int)
    (break_time break_start_time : Option Int)
    (service_time max_route_time slack_time : Int) :
    (time_matrix ≠ [] →
      ((starts.length : Int) ≠ num_vehicles ∨ (ends.length : Int) ≠ num_vehicles ∨
        ¬ (∀ i ∈ starts, 0 ≤ i ∧ i < (time_matrix.length : Int)) ∨
        ¬ (∀ i ∈ ends, 0 ≤ i ∧ i < (time_matrix.length : Int))) →
      isValueError (create_data_model time_matrix num_vehicles starts ends
        break_time break_start_time service_time max_route_time slack_time) = true) ∧
    (allChecksPass time_matrix num_vehicles starts ends break_time break_start_time
        service_time max_route_time slack_time = true →
      okB (create_data_model time_matrix num_vehicles starts ends
        break_time break_start_time service_time max_route_time slack_time) = true) := by
  constructor
  · intro hne hbad
    unfold create_data_model
    rw [if_neg hne]
    by_cases g2 : time_matrix.length ≠ time_matrix.headI.length
    · rw [if_pos g2]; rfl
    rw [if_neg g2]
    by_cases g3 : num_vehicles ≤ 0
    · rw [if_pos g3]; rfl
    rw [if_neg g3]
    by_cases g4 : (starts.length : Int) ≠ num_vehicles
    · rw [if_pos g4]; rfl
    rw [if_neg g4]
    by_cases g5 : (ends.length : Int) ≠ num_vehicles
    · rw [if_pos g5]; rfl
    rw [if_neg g5]
    by_cases g6 : ¬ (∀ i ∈ starts, 0 ≤ i ∧ i < (time_matrix.length : Int))
    · rw [if_pos g6]; rfl
    rw [if_neg g6]
    by_cases g7 : ¬ (∀ i ∈ ends, 0 ≤ i ∧ i < (time_matrix.length : Int))
    · rw [if_pos g7]; rfl
    rw [if_neg g7]
    rcases hbad with h | h | h | h
    · exact absurd h g4
    · exact absurd h g5
    · exact absurd h g6
    · exact absurd h g7
  · intro hall
    simp only [allChecksPass, Bool.and_eq_true, decide_eq_true_eq,
      Bool.not_eq_true', ne_eq] at hall
    obtain ⟨⟨⟨⟨⟨⟨⟨⟨⟨⟨⟨h1, h2⟩, h3⟩, h4⟩, h5⟩, h6⟩, h7⟩, h8⟩, h9⟩, h10⟩, h11⟩, h12⟩ := hall
    unfold create_data_model
    rw [if_neg h1,
      if_neg (fun hn => hn h2),
      if_neg (by omega : ¬ num_vehicles ≤ 0),
      if_neg (fun hn => hn h4),
      if_neg (fun hn => hn h5),
      if_neg (not_not_intro h6),
      if_neg (not_not_intro h7),
      if_neg (by rw [h8]; exact Bool.false_ne_true),
      if_neg (by rw [h9]; exact Bool.false_ne_true),
      if_neg (by omega : ¬ service_time < 0),
      if_neg (by omega : ¬ max_route_time ≤ 0),
      if_neg (by omega : ¬ slack_time < 0)]
    rfl

/-- Witness: an `ends` list of the wrong length is rejected with a
`ValueError`, and a fully valid input is accepted. -/
theorem create_data_model_checks_starts_ends_witness :
    isValueError (create_data_model [[0, 1], [1, 0]] 1 [0] [0, 1] none none 15 720 10) = true ∧
    okB (create_data_model [[0, 1], [1, 0]] 1 [0] [1] none none 15 720 10) = true :=
  ⟨(create_data_model_checks_starts_ends [[0, 1], [1, 0]] 1 [0] [0, 1] none none
      15 720 10).1 (by decide) (Or.inr (Or.inl (by decide))),
   (create_data_model_checks_starts_ends [[0, 1], [1, 0]] 1 [0] [1] none none
      15 720 10).2 (by decide)⟩

/-- A config with all four required keys present and a wrong-typed
optional key (`service_time` bound to a string). -/
def cfgBad : Config :=
  [("num_vehicles", .int 2), ("starts", .list [.int 0, .int 0]),
   ("ends", .list [.int 0, .int 0]), ("locations", .list [.str "a", .str "b"]),
   ("service_time", .str "fast")]

/-- C7 counterexample: a present optional key of the wrong type does NOT
make the config validation fail — `validate_required_keys` succeeds and
the string value is passed through unchecked. -/
theorem wrong_typed_optional_passes_validation :
    cfgGet cfgBad "service_time" = some (.str "fast") ∧
    validate_required_keys cfgBad required_keys = .ok true ∧
    main_service_time cfgBad = .str "fast" :=
  ⟨rfl, rfl, rfl⟩

/-- C7 amended: config validation fails fast exactly when a required key
is missing, and then the error message lists the missing keys (every
absent required key appears in the joined list); present optional keys are
not type-checked at this stage (any present value is passed through
unchanged); missing optional keys fall back to the defaults
`service_time = 15`, `max_route_time = 720`, `slack_time = 10`. -/
theorem config_validation_spec (config : Config) :
    (validate_required_keys config required_keys = .ok true ↔
      ∀ k ∈ required_keys, (cfgGet config k).isSome = true) ∧
    (∀ k ∈ required_keys, cfgGet config k = none →
      validate_required_keys config required_keys =
        .error (.valueError ("Missing required keys: " ++
          String.intercalate ", " (missing_of config required_keys))) ∧
      k ∈ missing_of config required_keys) ∧
    (cfgGet config "service_time" = none → main_service_time config = .int 15) ∧
    (cfgGet config "max_route_time" = none → main_max_route_time config = .int 720) ∧
    (cfgGet config "slack_time" = none → main_slack_time config = .int 10) ∧
    (∀ v, cfgGet config "service_time" = some v → main_service_time config = v) := by
  refine ⟨?_, ?_, ?_, ?_, ?_, ?_⟩
  · unfold validate_required_keys
    by_cases h : missing_of config required_keys ≠ []
    · rw [if_pos h]
      constructor
      · intro hcontra; cases hcontra
      · intro hall
        exfalso
        apply h
        unfold missing_of
        rw [List.filter_eq_nil_iff]
        intro k hk
        rw [Bool.not_eq_true, Option.isNone_eq_false_iff, Option.isSome_iff_exists]
        obtain ⟨v, hv⟩ := Option.isSome_iff_exists.mp (hall k hk)
        exact ⟨v, hv⟩
    · rw [if_neg h]
      rw [not_not] at h
      constructor
      · intro _ k hk
        have := List.filter_eq_nil_iff.mp h k hk
        rw [Bool.not_eq_true, Option.isNone_eq_false_iff] at this
        exact this
      · intro _; rfl
  · intro k hk hnone
    have hmem : k ∈ missing_of config required_keys := by
      unfold missing_of
      rw [List.mem_filter]
      exact ⟨hk, by rw [hnone]; rfl⟩
    have hne : missing_of config required_keys ≠ [] := List.ne_nil_of_mem hmem
    unfold validate_required_keys
    rw [if_pos hne]
    exact ⟨rfl, hmem⟩
  · intro h; unfold main_service_time; rw [h]; rfl
  · intro h; unfold main_max_route_time; rw [h]; rfl
  · intro h; unfold main_slack_time; rw [h]; rfl
  · intro v h; unfold main_service_time; rw [h]; rfl

/-- A config missing three of the four required keys, used by the
witness. -/
def cfgMissing : Config := [("num_vehicles", .int 1)]

/-- Witness: validating `cfgMissing` fails with the error that lists the
missing keys, `starts` among them. -/
theorem config_validation_spec_witness :
    validate_required_keys cfgMissing required_keys =
      .error (.valueError ("Missing required keys: " ++
        String.intercalate ", " (missing_of cfgMissing required_keys))) ∧
    "starts" ∈ missing_of cfgMissing required_keys :=
  (config_validation_spec cfgMissing).2.1 "starts" (by simp [required_keys]) rfl
